import Mathlib

/-!
Verification development for the tile-generation pipeline in
`src/preprocessing/step_3_generate_tiles.py`.

Modelling conventions:
* OSM tag maps (`properties` dicts) are modelled by the structure `Props`
  holding one `Option String` field per tag key the pipeline reads;
  a missing key is `none` (Python `dict.get` returns `None`).
* Python truthiness of a fetched tag value (`if props.get(k):`) is
  `truthy`: present and not the empty string.
* Geometry coordinates are exact numbers (`ℚ` for the executable parts of
  the development, `ℝ` for the Web-Mercator tile arithmetic); the float
  rounding of the source is idealized away.
* Python `int(...)` applied to a nonnegative float truncates toward zero;
  `pytruncR` embeds that exactly (floor for nonnegative, ceiling for
  negative arguments).
-/

/-- Python truthiness of a fetched tag value: present and non-empty. -/
def truthy : Option String → Bool
  | none => false
  | some s => !(s = "")

/-- Python `value in frozenset` where `value` came from `dict.get`
(`None` is never a member of the string sets used by the source). -/
def optIn (o : Option String) (set : List String) : Bool :=
  match o with
  | none => false
  | some v => set.contains v

/-- The OSM tag keys read anywhere in the classification / finalization
code of `step_3_generate_tiles.py`, one `Option String` field per key. -/
structure Props where
  highway : Option String := none
  railway : Option String := none
  waterway : Option String := none
  natural : Option String := none
  landuse : Option String := none
  building : Option String := none
  leisure : Option String := none
  water : Option String := none
  place : Option String := none
  name : Option String := none
  population : Option String := none
  amenity : Option String := none
  shop : Option String := none
  tourism : Option String := none
  historic : Option String := none
  construction : Option String := none
  boundary : Option String := none
  admin_level : Option String := none
deriving DecidableEq, Repr

/-- `MAJOR_RAIL` (`step_3_generate_tiles.py:76`). -/
def MAJOR_RAIL : List String := ["rail"]

/-- `MEDIUM_RAIL` (`step_3_generate_tiles.py:77`). -/
def MEDIUM_RAIL : List String := ["light_rail", "subway"]

/-- `MINOR_RAIL` (`step_3_generate_tiles.py:78`). -/
def MINOR_RAIL : List String := ["tram", "monorail", "narrow_gauge", "preserved"]

/-- `ALL_RAIL_TYPES` (`step_3_generate_tiles.py:79`). -/
def ALL_RAIL_TYPES : List String :=
  ["rail", "light_rail", "subway", "tram", "monorail", "narrow_gauge", "preserved"]

/-- `POLYGON_TYPES` (`step_3_generate_tiles.py:84`). -/
def POLYGON_TYPES : List String := ["Polygon", "MultiPolygon"]

/-- `MAJOR_HIGHWAYS` (`step_3_generate_tiles.py:87`). -/
def MAJOR_HIGHWAYS : List String := ["motorway", "trunk", "primary"]

/-- `SECONDARY_HIGHWAYS` (`step_3_generate_tiles.py:90`). -/
def SECONDARY_HIGHWAYS : List String := ["secondary"]

/-- `TERTIARY_RESIDENTIAL_HIGHWAYS` (`step_3_generate_tiles.py:91`). -/
def TERTIARY_RESIDENTIAL_HIGHWAYS : List String :=
  ["tertiary", "residential", "unclassified"]

/-- `PARK_LANDUSE` (`step_3_generate_tiles.py:94`). -/
def PARK_LANDUSE : List String := ["grass", "meadow", "village_green", "recreation_ground"]

/-- `FARM_LANDUSE` (`step_3_generate_tiles.py:95`). -/
def FARM_LANDUSE : List String :=
  ["farmland", "orchard", "vineyard", "farmyard", "greenhouse_horticulture", "plant_nursery"]

/-- `COMMERCIAL_LANDUSE` (`step_3_generate_tiles.py:105`). -/
def COMMERCIAL_LANDUSE : List String := ["commercial", "retail"]

/-- `CEMETERY_LANDUSE` (`step_3_generate_tiles.py:106`). -/
def CEMETERY_LANDUSE : List String := ["cemetery"]

/-- `RAILWAY_LANDUSE` (`step_3_generate_tiles.py:107`). -/
def RAILWAY_LANDUSE : List String := ["railway"]

/-- `CONSTRUCTION_LANDUSE` (`step_3_generate_tiles.py:108`). -/
def CONSTRUCTION_LANDUSE : List String := ["construction", "brownfield", "greenfield"]

/-- `MILITARY_LANDUSE` (`step_3_generate_tiles.py:109`). -/
def MILITARY_LANDUSE : List String := ["military"]

/-- `EDUCATION_LANDUSE` (`step_3_generate_tiles.py:110`). -/
def EDUCATION_LANDUSE : List String := ["education"]

/-- `RELIGIOUS_LANDUSE` (`step_3_generate_tiles.py:111`). -/
def RELIGIOUS_LANDUSE : List String := ["religious"]

/-- `ALLOTMENT_LANDUSE` (`step_3_generate_tiles.py:112`). -/
def ALLOTMENT_LANDUSE : List String := ["allotments"]

/-- `WATER_LANDUSE` (`step_3_generate_tiles.py:113`). -/
def WATER_LANDUSE : List String := ["basin", "reservoir"]

/-- `QUARRY_LANDUSE` (`step_3_generate_tiles.py:114`). -/
def QUARRY_LANDUSE : List String := ["quarry", "landfill"]

/-- `MAJOR_WATERWAYS` (`step_3_generate_tiles.py:117`). -/
def MAJOR_WATERWAYS : List String := ["river", "canal"]

/-- The `construction`-highway remap shared by
`classify_feature_importance` (lines 982-987) and `get_render_metadata`
(lines 764-769): a `highway=construction` feature with a truthy
`construction` tag is treated as having that tag's value for its
highway class. -/
def effectiveHighway (props : Props) : Option String :=
  match props.highway with
  | none => none
  | some h =>
    if h = "construction" then
      match props.construction with
      | none => some "construction"
      | some c => if c = "" then some "construction" else some c
    else some h

/-- `classify_feature_importance` (`step_3_generate_tiles.py:964-1054`):
returns `(min_zoom, importance_score)`.  `geom_type` is the GeoJSON
geometry type string exactly as the source compares it. -/
def classify_feature_importance (props : Props) (geom_type : String) : ℤ × ℤ :=
  let effective_highway := effectiveHighway props
  if props.natural = some "coastline" then (0, 110)
  else if props.natural = some "water" ∨ truthy props.water ∨
      props.waterway = some "riverbank" then (0, 100)
  else if props.landuse = some "forest" ∨ props.natural = some "wood" then (0, 90)
  else if optIn effective_highway MAJOR_HIGHWAYS then (0, 80)
  else if truthy props.railway ∧ geom_type ≠ "Point" ∧
      optIn props.railway ALL_RAIL_TYPES then (0, 70)
  else if optIn props.waterway MAJOR_WATERWAYS then (6, 60)
  else if optIn effective_highway SECONDARY_HIGHWAYS then (6, 50)
  else if props.leisure = some "park" ∨ optIn props.landuse PARK_LANDUSE ∨
      optIn props.landuse FARM_LANDUSE then (6, 40)
  else if optIn effective_highway TERTIARY_RESIDENTIAL_HIGHWAYS then (11, 30)
  else if truthy props.building then (11, 20)
  else if truthy effective_highway then (15, 10)
  else if geom_type = "Point" ∧ truthy props.place ∧ truthy props.name then
    if props.place = some "city" then (0, 95)
    else if props.place = some "town" then (0, 85)
    else if props.place = some "village" then (6, 55)
    else if props.place = some "suburb" ∨ props.place = some "borough" ∨
        props.place = some "quarter" then (11, 25)
    else (15, 8)
  else if geom_type = "Point" ∧ truthy props.name ∧
      (truthy props.amenity ∨ truthy props.shop ∨ truthy props.tourism) then (15, 5)
  else (99, 0)

/-- GeoJSON geometry, the closed set of variants the pipeline handles,
with coordinate pairs `(lon, lat)` over a numeric type `α`. -/
inductive Geometry (α : Type) where
  | point (c : α × α)
  | lineString (coords : List (α × α))
  | polygon (rings : List (List (α × α)))
  | multiLineString (lines : List (List (α × α)))
  | multiPolygon (polys : List (List (List (α × α))))
deriving DecidableEq, Repr

/-- The GeoJSON `type` string of a geometry (the source dispatches on
`geom["type"]`). -/
def Geometry.typeName : Geometry α → String
  | .point _ => "Point"
  | .lineString _ => "LineString"
  | .polygon _ => "Polygon"
  | .multiLineString _ => "MultiLineString"
  | .multiPolygon _ => "MultiPolygon"

/-- `count_coordinates` (`step_3_generate_tiles.py:407-429`): total number
of coordinate pairs in a geometry. -/
def count_coordinates : Geometry α → ℕ
  | .point _ => 1
  | .lineString coords => coords.length
  | .polygon rings => (rings.map List.length).sum
  | .multiLineString lines => (lines.map List.length).sum
  | .multiPolygon polys => (polys.map (fun poly => (poly.map List.length).sum)).sum

/-- A GeoJSON feature as the pipeline sees it: a tag map and a geometry.
Equality of `Feature` values models equality of the minified feature-JSON
strings the pipeline compares (the same deterministic serializer is used
on both sides of every comparison). -/
structure Feature (α : Type) where
  props : Props
  geometry : Geometry α
deriving DecidableEq, Repr

/-- The importance the scorer assigns to a feature (second component of
`classify_feature_importance`, as stored in the `importance` column). -/
def impOf (f : Feature α) : ℤ :=
  (classify_feature_importance f.props f.geometry.typeName).2

/-- An RGBA color record as produced by `get_render_metadata`. -/
structure Color where
  r : ℕ
  g : ℕ
  b : ℕ
  a : ℕ
deriving DecidableEq, Repr

/-- `POI_AMENITY_PRIORITY` (`step_3_generate_tiles.py:323`). -/
def POI_AMENITY_PRIORITY : List String :=
  ["food_drink", "nightlife", "health", "education", "transport", "services"]

/-- `POI_CATEGORIES["food_drink"]["amenity"]` (`step_3_generate_tiles.py:130`). -/
def FOOD_DRINK_AMENITY : List String :=
  ["restaurant", "fast_food", "cafe", "ice_cream", "food_court", "bbq"]

/-- `POI_CATEGORIES["food_drink"]["shop"]` (`step_3_generate_tiles.py:138`). -/
def FOOD_DRINK_SHOP : List String :=
  ["bakery", "pastry", "deli", "confectionery", "butcher", "cheese", "seafood",
   "coffee", "tea", "wine", "beverages", "alcohol"]

/-- `POI_CATEGORIES["shopping"]["shop"]` (`step_3_generate_tiles.py:155`). -/
def SHOPPING_SHOP : List String :=
  ["hairdresser", "clothes", "kiosk", "supermarket", "convenience", "beauty",
   "jewelry", "florist", "chemist", "mobile_phone", "optician", "shoes",
   "furniture", "books", "bicycle", "car_repair", "tailor", "tattoo", "massage",
   "interior_decoration", "electronics", "hardware", "sports", "toys", "gift",
   "stationery", "pet", "photo", "music", "art", "bag", "fabric",
   "garden_centre", "hearing_aids", "travel_agency", "dry_cleaning", "laundry",
   "car", "car_parts", "tyres", "motorcycle"]

/-- `POI_CATEGORIES["shopping"]["amenity"]` (`step_3_generate_tiles.py:198`). -/
def SHOPPING_AMENITY : List String := ["marketplace", "vending_machine"]

/-- `POI_CATEGORIES["health"]["amenity"]` (`step_3_generate_tiles.py:202`). -/
def HEALTH_AMENITY : List String :=
  ["doctors", "dentist", "pharmacy", "hospital", "clinic", "veterinary",
   "nursing_home"]

/-- `POI_CATEGORIES["services"]["amenity"]` (`step_3_generate_tiles.py:256`). -/
def SERVICES_AMENITY : List String :=
  ["bank", "post_office", "library", "police", "fire_station", "townhall",
   "courthouse", "embassy", "community_centre", "social_facility",
   "place_of_worship", "cinema", "theatre", "arts_centre", "driving_school",
   "recycling", "post_box", "atm", "bureau_de_change", "toilets",
   "events_venue", "childcare"]

/-- `POI_CATEGORIES["transport"]["amenity"]` (`step_3_generate_tiles.py:283`). -/
def TRANSPORT_AMENITY : List String :=
  ["bicycle_rental", "parking", "parking_entrance", "fuel", "charging_station",
   "car_sharing", "taxi", "bus_station", "ferry_terminal", "car_rental",
   "boat_rental"]

/-- `POI_CATEGORIES["education"]["amenity"]` (`step_3_generate_tiles.py:299`). -/
def EDUCATION_AMENITY : List String :=
  ["kindergarten", "school", "university", "college", "music_school",
   "language_school", "training"]

/-- `POI_CATEGORIES["nightlife"]["amenity"]` (`step_3_generate_tiles.py:311`). -/
def NIGHTLIFE_AMENITY : List String :=
  ["bar", "pub", "nightclub", "biergarten", "casino", "gambling",
   "hookah_lounge"]

/-- The `amenity` set of a POI category (empty for categories without one). -/
def poiCatAmenity : String → List String
  | "food_drink" => FOOD_DRINK_AMENITY
  | "nightlife" => NIGHTLIFE_AMENITY
  | "health" => HEALTH_AMENITY
  | "education" => EDUCATION_AMENITY
  | "transport" => TRANSPORT_AMENITY
  | "services" => SERVICES_AMENITY
  | "shopping" => SHOPPING_AMENITY
  | _ => []

/-- The `color` of each POI category (`POI_CATEGORIES[...]["color"]`). -/
def poiCatColor : String → Color
  | "food_drink" => ⟨231, 76, 60, 255⟩
  | "shopping" => ⟨155, 89, 182, 255⟩
  | "health" => ⟨46, 204, 113, 255⟩
  | "tourism" => ⟨230, 126, 34, 255⟩
  | "historic" => ⟨139, 69, 19, 255⟩
  | "services" => ⟨52, 152, 219, 255⟩
  | "transport" => ⟨26, 188, 156, 255⟩
  | "education" => ⟨243, 156, 18, 255⟩
  | "nightlife" => ⟨233, 30, 144, 255⟩
  | _ => ⟨100, 100, 100, 255⟩

/-- `classify_poi` (`step_3_generate_tiles.py:333-358`).  The shop loop
iterates `POI_CATEGORIES` in dict insertion order; only `food_drink` and
`shopping` carry a `shop` set, and the loop is followed by an
unconditional `return "shopping"`. -/
def classify_poi (props : Props) : Option String :=
  let amenity := props.amenity
  let shop := props.shop
  let tourism := props.tourism
  let historic := props.historic
  let amenityHit : Option String :=
    if truthy amenity then
      match POI_AMENITY_PRIORITY.find? (fun c => optIn amenity (poiCatAmenity c)) with
      | some c => some c
      | none => if optIn amenity SHOPPING_AMENITY then some "shopping" else none
    else none
  match amenityHit with
  | some c => some c
  | none =>
    if truthy shop then
      if optIn shop FOOD_DRINK_SHOP then some "food_drink"
      else if optIn shop SHOPPING_SHOP then some "shopping"
      else some "shopping"
    else if truthy tourism then some "tourism"
    else if truthy historic then some "historic"
    else if truthy amenity then some "services"
    else none

/-- The render block attached to each emitted feature
(`get_render_metadata`'s result dict); fields that a branch does not set
are `none`. -/
structure RenderMeta where
  layer : String
  color : Color
  minLOD : ℤ
  fill : Bool
  name : Option String := none
  name_priority : Option ℤ := none
  width : Option ℤ := none
  showDirection : Option Bool := none
  placeType : Option String := none
  placePriority : Option ℤ := none
  fontSize : Option ℤ := none
  population : Option ℤ := none
  poiCategory : Option String := none
deriving DecidableEq, Repr

/-- `pop_value` computation in the place-label branch
(`step_3_generate_tiles.py:873-878`): parse the `population` tag if
truthy, defaulting to `0` on absence or parse failure. -/
def parsePopulation (o : Option String) : ℤ :=
  match o with
  | none => 0
  | some s => if s = "" then 0 else (s.toInt?).getD 0

/-- `get_render_metadata` (`step_3_generate_tiles.py:588-961`): rendering
metadata for a feature, or `none` when the feature is skipped.  The
branch order follows the source exactly; the `railway` block falls
through to the place/POI branches when the railway value is in none of
the three rail sets. -/
def get_render_metadata (props : Props) (geom_type : String) : Option RenderMeta :=
  let landuse := props.landuse
  let natural := props.natural
  let waterway := props.waterway
  let building := props.building
  let railway := props.railway
  let leisure := props.leisure
  let is_polygon := POLYGON_TYPES.contains geom_type
  if (leisure = some "park" ∨ optIn landuse PARK_LANDUSE) ∧ is_polygon then
    some { layer := "natural_background", color := ⟨200, 230, 180, 255⟩,
           minLOD := 1, fill := true }
  else if optIn landuse FARM_LANDUSE ∧ is_polygon then
    some { layer := "natural_background", color := ⟨238, 240, 213, 255⟩,
           minLOD := 1, fill := true }
  else if (landuse = some "forest" ∨ natural = some "wood") ∧ is_polygon then
    some { layer := "forests", color := ⟨173, 209, 158, 255⟩,
           minLOD := 0, fill := true }
  else if (natural = some "water" ∨ truthy props.water ∨ waterway = some "riverbank" ∨
      natural = some "coastline" ∨ optIn landuse WATER_LANDUSE) ∧ is_polygon then
    some { layer := "water_areas", color := ⟨170, 211, 223, 255⟩,
           minLOD := 0, fill := true }
  else if truthy waterway ∧ waterway ≠ some "riverbank" then
    some { layer := "waterways", color := ⟨170, 211, 223, 255⟩,
           minLOD := if optIn waterway MAJOR_WATERWAYS then 1 else 2, fill := false }
  else if optIn landuse CEMETERY_LANDUSE ∧ is_polygon then
    some { layer := "landuse_areas", color := ⟨205, 220, 200, 255⟩,
           minLOD := 1, fill := true }
  else if optIn landuse ALLOTMENT_LANDUSE ∧ is_polygon then
    some { layer := "landuse_areas", color := ⟨220, 235, 210, 255⟩,
           minLOD := 2, fill := true }
  else if optIn landuse RAILWAY_LANDUSE ∧ is_polygon then
    some { layer := "landuse_areas", color := ⟨210, 205, 210, 255⟩,
           minLOD := 1, fill := true }
  else if optIn landuse CONSTRUCTION_LANDUSE ∧ is_polygon then
    some { layer := "landuse_areas", color := ⟨235, 220, 200, 255⟩,
           minLOD := 2, fill := true }
  else if optIn landuse MILITARY_LANDUSE ∧ is_polygon then
    some { layer := "landuse_areas", color := ⟨235, 215, 215, 255⟩,
           minLOD := 1, fill := true }
  else if optIn landuse EDUCATION_LANDUSE ∧ is_polygon then
    some { layer := "landuse_areas", color := ⟨245, 235, 210, 255⟩,
           minLOD := 2, fill := true }
  else if optIn landuse RELIGIOUS_LANDUSE ∧ is_polygon then
    some { layer := "landuse_areas", color := ⟨225, 220, 230, 255⟩,
           minLOD := 2, fill := true }
  else if optIn landuse QUARRY_LANDUSE ∧ is_polygon then
    some { layer := "landuse_areas", color := ⟨210, 200, 190, 255⟩,
           minLOD := 2, fill := true }
  else if landuse = some "residential" ∧ is_polygon then
    some { layer := "landuse_areas", color := ⟨224, 224, 224, 255⟩,
           minLOD := 1, fill := true }
  else if optIn landuse COMMERCIAL_LANDUSE ∧ is_polygon then
    some { layer := "landuse_areas", color := ⟨243, 233, 234, 255⟩,
           minLOD := 1, fill := true }
  else if landuse = some "industrial" ∧ is_polygon then
    some { layer := "landuse_areas", color := ⟨240, 233, 240, 255⟩,
           minLOD := 1, fill := true }
  else if truthy building ∧ is_polygon then
    some { layer := "areas", color := ⟨218, 208, 200, 255⟩,
           minLOD := 2, fill := true }
  else
    let effective_highway := effectiveHighway props
    if optIn effective_highway MAJOR_HIGHWAYS then
      some { layer := "major_roads",
             color := if effective_highway = some "motorway" ∨
                 effective_highway = some "trunk" then ⟨233, 115, 103, 255⟩
               else ⟨252, 214, 164, 255⟩,
             minLOD := 0, fill := false, name := some (props.name.getD ""),
             name_priority := some (if effective_highway = some "motorway" ∨
               effective_highway = some "trunk" then 1 else 2) }
    else if optIn effective_highway SECONDARY_HIGHWAYS then
      some { layer := "major_roads", color := ⟨252, 214, 164, 255⟩,
             minLOD := 1, fill := false, name := some (props.name.getD ""),
             name_priority := some 3 }
    else if optIn effective_highway TERTIARY_RESIDENTIAL_HIGHWAYS then
      some { layer := "roads", color := ⟨255, 255, 255, 255⟩,
             minLOD := 2, fill := false, name := some (props.name.getD ""),
             name_priority := some (if effective_highway = some "tertiary" then 4 else 5) }
    else if truthy effective_highway then
      some { layer := "roads", color := ⟨220, 220, 220, 255⟩,
             minLOD := 3, fill := false, name := some (props.name.getD ""),
             name_priority := some 6 }
    else if natural = some "coastline" ∧ ¬ is_polygon then
      some { layer := "coastline", color := ⟨255, 0, 255, 255⟩,
             minLOD := 0, fill := false, width := some 3, showDirection := some true }
    else if props.boundary = some "administrative" ∧ props.admin_level = some "2" then
      some { layer := "boundaries", color := ⟨128, 0, 128, 255⟩,
             minLOD := 0, fill := false }
    else if truthy railway ∧ geom_type ≠ "Point" ∧
        (optIn railway MAJOR_RAIL ∨ ¬ truthy railway) then
      some { layer := "railways", color := ⟨153, 153, 153, 255⟩,
             minLOD := 0, fill := false }
    else if truthy railway ∧ geom_type ≠ "Point" ∧ optIn railway MEDIUM_RAIL then
      some { layer := "railways", color := ⟨153, 153, 153, 255⟩,
             minLOD := 1, fill := false }
    else if truthy railway ∧ geom_type ≠ "Point" ∧ optIn railway MINOR_RAIL then
      some { layer := "railways", color := ⟨153, 153, 153, 255⟩,
             minLOD := 2, fill := false }
    else if geom_type = "Point" ∧ truthy props.place ∧ truthy props.name then
      let pop_value := parsePopulation props.population
      let mpf : ℤ × ℤ × ℤ :=
        if props.place = some "city" then (0, 1, 18)
        else if props.place = some "town" then
          if pop_value ≥ 50000 then (0, 2, 16) else (1, 3, 16)
        else if props.place = some "village" then
          if pop_value ≥ 5000 then (1, 4, 14) else (2, 5, 14)
        else if props.place = some "suburb" ∨ props.place = some "borough" ∨
            props.place = some "quarter" then (2, 6, 13)
        else if props.place = some "hamlet" ∨ props.place = some "neighbourhood" then
          (3, 7, 12)
        else if props.place = some "locality" ∨
            props.place = some "isolated_dwelling" then (4, 8, 11)
        else (3, 9, 12)
      some { layer := "place_labels", color := ⟨0, 0, 0, 255⟩,
             minLOD := mpf.1, fill := false, placeType := props.place,
             placePriority := some mpf.2.1, fontSize := some mpf.2.2,
             population := some pop_value }
    else if geom_type = "Point" ∧ truthy props.name ∧
        (truthy props.amenity ∨ truthy props.shop ∨ truthy props.tourism ∨
         truthy props.historic) then
      match classify_poi props with
      | some cat =>
        some { layer := "points", color := poiCatColor cat,
               minLOD := 3, fill := false, poiCategory := some cat }
      | none =>
        some { layer := "points", color := ⟨100, 100, 100, 255⟩,
               minLOD := 3, fill := false, poiCategory := some "services" }
    else none

/-- The `epsilon_map` lookup with default `0.0001`
(`step_3_generate_tiles.py:464-471`). -/
def epsilonForZoom (zoom : ℤ) : ℚ :=
  if zoom = 3 then 3 / 1000
  else if zoom = 5 then 2 / 1000
  else if zoom = 8 then 8 / 10000
  else if zoom = 11 then 2 / 10000
  else if zoom = 14 then 5 / 100000
  else 1 / 10000

/-- The epsilon computation of `simplify_feature_for_zoom`
(`step_3_generate_tiles.py:463-518`): the zoom-level base value scaled by
the feature-type factor (roads 0.4, coastlines 0.3, waterways 0.5,
forests 1.3, water 0.7) and the LOD factor (1.2 at LOD 0, 0.7 at
LOD ≥ 11). -/
def simplifyEpsilon (props : Props) (zoom min_lod : ℤ) : ℚ :=
  let epsilon := epsilonForZoom zoom
  let epsilon1 :=
    if props.highway ≠ none then epsilon * (4 / 10)
    else if props.natural = some "coastline" then epsilon * (3 / 10)
    else if props.waterway ≠ none then epsilon * (5 / 10)
    else if props.landuse = some "forest" ∨ props.natural = some "wood" then
      epsilon * (13 / 10)
    else if props.natural = some "water" ∨ truthy props.water then
      epsilon * (7 / 10)
    else epsilon
  if min_lod = 0 then epsilon1 * (12 / 10)
  else if min_lod ≥ 11 then epsilon1 * (7 / 10)
  else epsilon1

/-- `simplify_feature_for_zoom` (`step_3_generate_tiles.py:432-546`).
The external Shapely call
`mapping(shape(geom).simplify(epsilon, preserve_topology=True))` is the
parameter `simplifyGeom`; it receives the computed epsilon and the
geometry and returns `none` when the call raises (the source's
`except: pass` keeps the original geometry then).  The source's early
returns for a missing Shapely import or an absent geometry also return
the feature unchanged and are subsumed by the `none` case. -/
def simplify_feature_for_zoom
    (simplifyGeom : ℚ → Geometry ℚ → Option (Geometry ℚ))
    (feature : Feature ℚ) (zoom : ℤ) (min_lod : ℤ) : Feature ℚ :=
  let geom := feature.geometry
  if geom.typeName = "Point" then feature
  else
    let props := feature.props
    if truthy props.building then feature
    else
      let coord_count := count_coordinates geom
      if coord_count < 5 then feature
      else
        let is_road := props.highway ≠ none
        let is_coastline := props.natural = some "coastline"
        if is_road ∧ zoom = 14 then feature
        else if ¬ is_road ∧ is_coastline ∧ zoom = 14 then feature
        else
          match simplifyGeom (simplifyEpsilon props zoom min_lod) geom with
          | none => feature
          | some simplified =>
            if 10 * count_coordinates simplified < 9 * coord_count then
              { feature with geometry := simplified }
            else feature

/-- The `seen`-set deduplication loop used by the tile finalization paths
(`step_3_generate_tiles.py:1564-1571`, `1676-1682`, `1754-1760`): keep
the first occurrence of each feature-JSON string. -/
def dedupAux [DecidableEq F] (seen : List F) : List F → List F
  | [] => []
  | f :: rest => if f ∈ seen then dedupAux seen rest else f :: dedupAux (f :: seen) rest

/-- Deduplicate a feature list by exact feature-JSON string, keeping
first occurrences (`seen = set(); ... if feat_str not in seen`). -/
def dedupFeatures [DecidableEq F] (l : List F) : List F := dedupAux [] l

/-- The `_meta` block of a finalized tile document. -/
structure TileMeta where
  hasCoastline : Bool
  hasLandFeatures : Bool
deriving DecidableEq, Repr

/-- An emitted tile document: either a bare feature collection (the
mid-stream write path of `split_geojson_into_tiles`, lines 1490-1493) or
one carrying a `_meta` block (lines 1606-1614, 1717-1725, 1794-1802). -/
inductive TileOut (F : Type) where
  | plain (features : List F)
  | withMeta (meta : TileMeta) (features : List F)
deriving DecidableEq, Repr

/-- The feature list of an emitted tile document. -/
def TileOut.featureList : TileOut F → List F
  | .plain fs => fs
  | .withMeta _ fs => fs

/-- Whether an emitted tile document carries a `_meta` block. -/
def TileOut.hasMetaBlock : TileOut F → Bool
  | .plain _ => false
  | .withMeta _ _ => true

/-- `props.get("natural") == "coastline"` — the `hasCoastline` test
(`step_3_generate_tiles.py:1584`). -/
def isCoastlineFeature (p : Props) : Bool := p.natural == some "coastline"

/-- The `hasLandFeatures` test (`step_3_generate_tiles.py:1589-1601`):
any of the allow-listed tags `highway`, `building`, `landuse`, `railway`,
`amenity`, `shop` truthy, or a truthy `natural` other than `coastline`
and `water`. -/
def isLandFeature (p : Props) : Bool :=
  truthy p.highway || truthy p.building || truthy p.landuse || truthy p.railway ||
  truthy p.amenity || truthy p.shop ||
  (truthy p.natural && !(p.natural == some "coastline" || p.natural == some "water"))

/-- The metadata scan over the merged feature list
(`step_3_generate_tiles.py:1573-1603`): `hasCoastline` / `hasLandFeatures`
are set when any feature passes the corresponding tag test.  (The scan
also collects `coastline_features`, which the source never uses.) -/
def computeTileMeta (features : List (Feature α)) : TileMeta :=
  ⟨features.any (fun f => isCoastlineFeature f.props),
   features.any (fun f => isLandFeature f.props)⟩

/-- The finalizing write path shared by the last tile of each zoom in
`split_geojson_into_tiles` (lines 1551-1615) and by every tile in
`write_tiles_from_databases` (lines 1663-1726, 1741-1803): merge with the
previously written document, deduplicate by exact feature-JSON string,
compute the `_meta` flags over the merged list, and emit. -/
def writeFinalTile [DecidableEq α] (existing new : List (Feature α)) :
    TileOut (Feature α) :=
  let merged := dedupFeatures (existing ++ new)
  .withMeta (computeTileMeta merged) merged

/-- The mid-stream write path of `split_geojson_into_tiles`
(lines 1474-1494): concatenate the previously written document's features
with the new batch — no deduplication and no `_meta` block. -/
def writeMidTile (existing new : List (Feature α)) : TileOut (Feature α) :=
  .plain (existing ++ new)

/-- One row of the per-zoom `tile_features` SQLite table:
`(x, y, importance, feature_json)` (`step_3_generate_tiles.py:1141-1148`). -/
structure Row (α : Type) where
  x : ℤ
  y : ℤ
  importance : ℤ
  feature : Feature α
deriving DecidableEq, Repr

/-- The ordering of `SELECT x, y, feature_json FROM tile_features ORDER BY
x, y, importance DESC`: ascending on `x`, then `y`, then descending on
`importance`. -/
def rowKeyLE (a b : Row α) : Prop :=
  a.x < b.x ∨ (a.x = b.x ∧ (a.y < b.y ∨ (a.y = b.y ∧ b.importance ≤ a.importance)))

instance : DecidableRel (@rowKeyLE α) := fun a b => by
  unfold rowKeyLE; infer_instance

instance : IsTotal (Row α) rowKeyLE :=
  ⟨by intro a b; unfold rowKeyLE; omega⟩

instance : IsTrans (Row α) rowKeyLE :=
  ⟨by intro a b c hab hbc; unfold rowKeyLE at *; omega⟩

/-- The row sequence the Pass-2 cursor yields: the inserted rows sorted
ascending on `(x, y)` with `importance` descending.  The scan follows
`idx_tile (x, y, importance DESC)` whose entries tie-break on rowid, so
rows with equal key keep their insertion (read) order: a stable sort. -/
def sortRows (rows : List (Row α)) : List (Row α) :=
  List.insertionSort rowKeyLE rows

/-- The `feature_jsons` batch accumulated for tile `k` by the Pass-2
writer loop (`step_3_generate_tiles.py:1463-1540`): because the cursor is
ordered by `(x, y)`, the run of rows for tile `k` is exactly the ordered
cursor filtered to `k`, in cursor order. -/
def tileRowFeatures (rows : List (Row α)) (k : ℤ × ℤ) : List (Feature α) :=
  ((sortRows rows).filter (fun r => decide (r.x = k.1 ∧ r.y = k.2))).map Row.feature

/-- The `(x, y)` of the last row the Pass-2 cursor yields — the tile the
post-loop write (`if current_tile is not None:`) finalizes. -/
def lastTileKey (rows : List (Row α)) : Option (ℤ × ℤ) :=
  ((sortRows rows).getLast?).map (fun r => (r.x, r.y))

/-- The document `split_geojson_into_tiles` Pass 2 emits for tile `k`
(for one zoom database): every tile written inside the cursor loop goes
through the plain concatenation path (lines 1474-1494); only the final
tile of the cursor goes through the dedup + `_meta` path
(lines 1542-1615).  `existingAt k` is the feature list of the document
already on disk at tile `k`'s path (empty if none or unreadable). -/
def pass2TileOutput [DecidableEq α] (existingAt : ℤ × ℤ → List (Feature α))
    (rows : List (Row α)) (k : ℤ × ℤ) : TileOut (Feature α) :=
  if lastTileKey rows = some k then
    writeFinalTile (existingAt k) (tileRowFeatures rows k)
  else
    writeMidTile (existingAt k) (tileRowFeatures rows k)

/-- The document `write_tiles_from_databases` emits for tile `k` (for one
zoom database): every tile — in-loop and final — goes through the dedup +
`_meta` path (`step_3_generate_tiles.py:1651-1803`). -/
def dbTileOutput [DecidableEq α] (existingAt : ℤ × ℤ → List (Feature α))
    (rows : List (Row α)) (k : ℤ × ℤ) : TileOut (Feature α) :=
  writeFinalTile (existingAt k) (tileRowFeatures rows k)

/-- Source bounds `(minLon, maxLon, minLat, maxLat)`. -/
structure Bounds (α : Type) where
  minLon : α
  maxLon : α
  minLat : α
  maxLat : α
deriving DecidableEq, Repr

/-- Result record a worker returns for one source
(`process_geojson_to_tiles`, `step_3_generate_tiles.py:1809-1834`). -/
inductive SourceStatus where
  | success (bounds : Bounds ℚ)
  | failed (error : String)
deriving DecidableEq, Repr

/-- A per-source result as collected in `all_results`. -/
structure SourceResult where
  name : String
  status : SourceStatus
deriving DecidableEq, Repr

/-- `process_geojson_to_tiles` (`step_3_generate_tiles.py:1809-1834`):
run one source to completion; an exception anywhere inside
(`split_geojson_into_tiles` — e.g. the bounds oracle raising
`ValueError`) is caught and reported as a `failed` record, never
propagated to the orchestrator.  The source's work is the `outcome`
argument: `.ok bounds` on success, `.error msg` when it raises. -/
def process_geojson_to_tiles (name : String)
    (outcome : Except String (Bounds ℚ)) : SourceResult :=
  match outcome with
  | .ok b => ⟨name, .success b⟩
  | .error e => ⟨name, .failed e⟩

/-- The orchestrator's result collection (`main`,
`step_3_generate_tiles.py:2022-2033`): every source is processed
independently and contributes exactly one result record. -/
def runSources (sources : List (String × Except String (Bounds ℚ))) :
    List SourceResult :=
  sources.map (fun s => process_geojson_to_tiles s.1 s.2)

/-- Whether a result record is a success. -/
def SourceResult.isSuccess (r : SourceResult) : Bool :=
  match r.status with
  | .success _ => true
  | .failed _ => false

/-- `success_count` (`step_3_generate_tiles.py:2078-2098`). -/
def successCount (rs : List SourceResult) : ℕ :=
  (rs.filter SourceResult.isSuccess).length

/-- The process exit code of `main` (`step_3_generate_tiles.py:2177-2186`):
`sys.exit(1)` when `success_count < len(all_results)`, otherwise fall off
the end of `main` (exit code 0). -/
def mainExitCode (rs : List SourceResult) : ℕ :=
  if successCount rs < rs.length then 1 else 0

/-- Python `int(...)` on a float: truncation toward zero — floor for
nonnegative arguments, ceiling for negative ones. -/
noncomputable def pytruncR (x : ℝ) : ℤ := if 0 ≤ x then ⌊x⌋ else ⌈x⌉

/-- `lon_to_tile_x` (`step_3_generate_tiles.py:361-364`):
`int((lon + 180.0) / 360.0 * 2**zoom)`. -/
noncomputable def lon_to_tile_x (lon : ℝ) (zoom : ℕ) : ℤ :=
  pytruncR ((lon + 180) / 360 * 2 ^ zoom)

/-- The Web-Mercator y parameter of `lat_to_tile_y` before the `int(...)`
truncation: `(1.0 - asinh(tan(radians(lat))) / pi) / 2.0` — scaled by
`n = 2**zoom` in `mercParam`. -/
noncomputable def mercRaw (lat : ℝ) : ℝ :=
  (1 - Real.arsinh (Real.tan (lat * Real.pi / 180)) / Real.pi) / 2

/-- The full y parameter `(1.0 - asinh(tan(lat_rad)) / pi) / 2.0 * n`
(`step_3_generate_tiles.py:367-371`). -/
noncomputable def mercParam (lat : ℝ) (zoom : ℕ) : ℝ := mercRaw lat * 2 ^ zoom

/-- `lat_to_tile_y` (`step_3_generate_tiles.py:367-371`). -/
noncomputable def lat_to_tile_y (lat : ℝ) (zoom : ℕ) : ℤ :=
  pytruncR (mercParam lat zoom)

/-- `tile_to_lon` (`step_3_generate_tiles.py:374-377`):
`x / n * 360.0 - 180.0`. -/
noncomputable def tile_to_lon (x : ℤ) (zoom : ℕ) : ℝ :=
  (x : ℝ) / 2 ^ zoom * 360 - 180

/-- `tile_to_lat` (`step_3_generate_tiles.py:380-384`):
`degrees(atan(sinh(pi * (1 - 2 * y / n))))`. -/
noncomputable def tile_to_lat (y : ℤ) (zoom : ℕ) : ℝ :=
  Real.arctan (Real.sinh (Real.pi * (1 - 2 * (y : ℝ) / 2 ^ zoom))) * 180 / Real.pi

/-- `get_tile_bounds` (`step_3_generate_tiles.py:387-394`): the lat/lon
bounding box of tile `(x, y)` (`minLat` uses `y + 1`: Y is inverted). -/
noncomputable def get_tile_bounds (x y : ℤ) (zoom : ℕ) : Bounds ℝ :=
  ⟨tile_to_lon x zoom, tile_to_lon (x + 1) zoom,
   tile_to_lat (y + 1) zoom, tile_to_lat y zoom⟩

/-- The coordinates `get_feature_bounds` iterates
(`step_3_generate_tiles.py:549-575`): all coordinates for points and
line geometries, only the outer ring (`coords[0]`) for polygons, only
the first ring of each member polygon for multi-polygons. -/
def boundsCoords : Geometry α → List (α × α)
  | .point c => [c]
  | .lineString cs => cs
  | .polygon rings => rings.headD []
  | .multiLineString lines => lines.flatten
  | .multiPolygon polys => polys.flatMap (fun poly => poly.headD [])

/-- `min` over a nonempty collection, as `min(lons)` computes it. -/
def listMin [LinearOrder α] (a : α) (l : List α) : α := l.foldl min a

/-- `max` over a nonempty collection, as `max(lons)` computes it. -/
def listMax [LinearOrder α] (a : α) (l : List α) : α := l.foldl max a

/-- `get_feature_bounds` (`step_3_generate_tiles.py:549-585`): bounding
box of a feature, `none` when no coordinates were collected. -/
def get_feature_bounds [LinearOrder α] (f : Feature α) : Option (Bounds α) :=
  match boundsCoords f.geometry with
  | [] => none
  | c :: cs =>
    some ⟨listMin c.1 (cs.map Prod.fst), listMax c.1 (cs.map Prod.fst),
          listMin c.2 (cs.map Prod.snd), listMax c.2 (cs.map Prod.snd)⟩

/-- Python `range(a, b + 1)` over integers, as a list. -/
def intRange (a b : ℤ) : List ℤ :=
  (List.range (b + 1 - a).toNat).map (fun i : ℕ => a + (i : ℤ))

/-- `get_tiles_for_feature` (`step_3_generate_tiles.py:1057-1073`): the
Cartesian product of the tile-x range of the bounding-box longitudes and
the tile-y range of the bounding-box latitudes (`min_y` comes from
`maxLat`: Y is inverted).  The source returns `(zoom, x, y)` triples; the
constant zoom component is kept as a parameter here. -/
noncomputable def get_tiles_for_feature (f : Feature ℝ) (zoom : ℕ) :
    List (ℤ × ℤ) :=
  match get_feature_bounds f with
  | none => []
  | some b =>
    let min_x := lon_to_tile_x b.minLon zoom
    let max_x := lon_to_tile_x b.maxLon zoom
    let min_y := lat_to_tile_y b.maxLat zoom
    let max_y := lat_to_tile_y b.minLat zoom
    (intRange min_x max_x).flatMap
      (fun x => (intRange min_y max_y).map (fun y => (x, y)))

/-- Two lat/lon bounding boxes intersect (share at least one point):
the interval overlap condition on both axes. -/
def bboxIntersects (a b : Bounds ℝ) : Prop :=
  a.minLon ≤ b.maxLon ∧ b.minLon ≤ a.maxLon ∧
  a.minLat ≤ b.maxLat ∧ b.minLat ≤ a.maxLat

/-- Modelled from the spec (§4.4 Tile Router), for comparison with the
source's `lon_to_tile_x`: `metersPerDegLon = 111,320 · cos(latAvg)`,
`tileWidthDeg = S / metersPerDegLon`, and the tile x index of a longitude
is `floor(lon_deg / tileWidthDeg)` — an equal-metric grid originating at
`lon = 0` for a tileset of tile size `S` meters. -/
noncomputable def spec_lon_to_tile_x (S latAvg lon : ℝ) : ℤ :=
  ⌊lon / (S / (111320 * Real.cos (latAvg * Real.pi / 180)))⌋

/-- The Hamburg scenario feature: a point tagged
`place=city, name=Hamburg, population=1900000`. -/
def hamburgProps : Props :=
  { place := some "city", name := some "Hamburg", population := some "1900000" }

/-- The Hamburg scenario feature with its point geometry. -/
def hamburgFeature : Feature ℚ :=
  ⟨hamburgProps, .point (10, 54)⟩

/-- A coastline line-string feature (`natural=coastline`). -/
def coastFeature : Feature ℚ :=
  ⟨{ natural := some "coastline" }, .lineString [(0, 0), (1, 1)]⟩

/-- A building polygon feature (importance 20). -/
def buildingFeature : Feature ℚ :=
  ⟨{ building := some "yes" },
   .polygon [[(0, 0), (1, 0), (1, 1), (0, 0)]]⟩

/-- A motorway line feature (importance 80). -/
def motorwayFeature : Feature ℚ :=
  ⟨{ highway := some "motorway" }, .lineString [(0, 0), (2, 2)]⟩

/-- Merge scenario: the tile document already on disk holds the building
feature (tile `(0,0)`), nothing elsewhere. -/
def existingBuilding : ℤ × ℤ → List (Feature ℚ) :=
  fun k => if k = (0, 0) then [buildingFeature] else []

/-- Merge scenario rows: one new motorway row for tile `(0,0)`. -/
def rowsMotorway : List (Row ℚ) := [⟨0, 0, 80, motorwayFeature⟩]

/-- Two-tile scenario rows: the building feature again for tile `(0,0)`
(duplicating the previously written document) and a motorway row for
tile `(1,0)`, so that `(0,0)` is written by the mid-stream path. -/
def rowsTwoTiles : List (Row ℚ) :=
  [⟨0, 0, 20, buildingFeature⟩, ⟨1, 0, 80, motorwayFeature⟩]

/-- Fresh-tile scenario rows for tile `(0,0)`: a motorway row then a
building row, as read from the input stream. -/
def rowsFresh : List (Row ℚ) :=
  [⟨0, 0, 80, motorwayFeature⟩, ⟨0, 0, 20, buildingFeature⟩]

/-- A `construction`-highway tag map targeting `primary`. -/
def constructionProps : Props :=
  { highway := some "construction", construction := some "primary" }

/-- C6 counterexample feature: a point at `(lon, lat) = (0, 89)` —
a valid WGS84 coordinate north of the Web-Mercator cap (≈ 85.05°). -/
noncomputable def f89 : Feature ℝ := ⟨{}, .point (0, 89)⟩

/-- C6 witness feature: a point at the origin `(0, 0)`. -/
noncomputable def fOrigin : Feature ℝ := ⟨{}, .point (0, 0)⟩

theorem dedupAux_sublist [DecidableEq F] (seen : List F) :
    ∀ l : List F, List.Sublist (dedupAux seen l) l := by
  intro l
  induction l generalizing seen with
  | nil => simp [dedupAux]
  | cons f rest ih =>
    simp only [dedupAux]
    split
    · exact (ih seen).trans (List.sublist_cons_self f rest)
    · exact (ih (f :: seen)).cons₂ f

theorem mem_dedupAux_not_seen [DecidableEq F] (seen : List F) (l : List F) :
    ∀ x ∈ dedupAux seen l, x ∉ seen := by
  induction l generalizing seen with
  | nil => simp [dedupAux]
  | cons f rest ih =>
    intro x hx
    simp only [dedupAux] at hx
    split at hx
    · exact ih seen x hx
    · rcases List.mem_cons.mp hx with h | h
      · subst h; assumption
      · intro hs
        exact ih (f :: seen) x h (List.mem_cons_of_mem f hs)

theorem dedupAux_nodup [DecidableEq F] (seen : List F) (l : List F) :
    (dedupAux seen l).Nodup := by
  induction l generalizing seen with
  | nil => simp [dedupAux]
  | cons f rest ih =>
    simp only [dedupAux]
    split
    · exact ih seen
    · refine List.Nodup.cons ?_ (ih (f :: seen))
      intro hmem
      exact mem_dedupAux_not_seen (f :: seen) rest f hmem (List.mem_cons_self f seen)

theorem dedupFeatures_nodup [DecidableEq F] (l : List F) :
    (dedupFeatures l).Nodup :=
  dedupAux_nodup [] l

theorem dedupFeatures_sublist [DecidableEq F] (l : List F) :
    List.Sublist (dedupFeatures l) l :=
  dedupAux_sublist [] l

/-- **C7.** For a single point feature tagged
`place=city, name=Hamburg, population=1900000`, the importance scorer
assigns importance 95, and the finalized tile containing it has
`hasCoastline = false` and `hasLandFeatures = false`. -/
theorem c7_hamburg_city_point :
    (classify_feature_importance hamburgProps "Point").2 = 95 ∧
    writeFinalTile [] [hamburgFeature] =
      TileOut.withMeta ⟨false, false⟩ [hamburgFeature] := by
  constructor
  · decide
  · decide

/-- **C1.** Finalizing a tile whose features consist of a single
coastline line-string sets `hasCoastline = true` but emits the feature
list unchanged: no synthesized ocean/water polygon is added (the
`coastline_features` list the scan collects is never used by the
source). -/
theorem c1_coastline_tile_without_ocean_polygon :
    writeFinalTile [] [coastFeature] =
      TileOut.withMeta ⟨true, false⟩ [coastFeature] ∧
    ∀ f ∈ (writeFinalTile [] [coastFeature]).featureList,
      f.props.natural ≠ some "water" ∧ f.props.water ≠ some "ocean" := by
  constructor
  · decide
  · decide

/-- **C4 counterexample.** The mid-stream write path of
`split_geojson_into_tiles` (every tile of a zoom except the last one the
cursor yields) concatenates the existing document with the new batch
without deduplication: merging tile `(0,0)` — which already holds the
building feature — with a batch containing the same feature yields a
document with a duplicated feature-JSON string. -/
theorem c4_counterexample :
    ¬ (pass2TileOutput existingBuilding rowsTwoTiles (0, 0)).featureList.Nodup := by
  decide

/-- **C4 (amended).** Every tile document emitted by
`write_tiles_from_databases`, and the last tile per zoom emitted by
`split_geojson_into_tiles`, is deduplicated by exact feature-JSON string:
its feature list is pairwise distinct.  (Mid-stream tiles of
`split_geojson_into_tiles` are exempt — see the counterexample.) -/
theorem c4_final_tiles_nodup [DecidableEq α]
    (existing new : List (Feature α)) :
    (writeFinalTile existing new).featureList.Nodup :=
  dedupFeatures_nodup (existing ++ new)

/-- **C5 counterexample.** The mid-stream write path of
`split_geojson_into_tiles` emits a bare feature collection with no
`_meta` block at all. -/
theorem c5_counterexample :
    (pass2TileOutput existingBuilding rowsTwoTiles (0, 0)).hasMetaBlock = false := by
  decide

/-- **C5 (amended).** Every tile document emitted through the finalizing
write path (`write_tiles_from_databases` for all tiles, and the last tile
per zoom of `split_geojson_into_tiles`) carries a `_meta` block whose
`hasCoastline` is true iff some feature of the document is tagged
`natural=coastline` and whose `hasLandFeatures` is true iff some feature
carries a non-water tag of the fixed allow-list.  Mid-stream tiles of
`split_geojson_into_tiles` carry no `_meta` block. -/
theorem c5_meta_flags [DecidableEq α] (existing new : List (Feature α))
    (m : TileMeta) (fs : List (Feature α))
    (h : writeFinalTile existing new = TileOut.withMeta m fs) :
    (m.hasCoastline = true ↔ ∃ f ∈ fs, isCoastlineFeature f.props = true) ∧
    (m.hasLandFeatures = true ↔ ∃ f ∈ fs, isLandFeature f.props = true) := by
  have hm : m = computeTileMeta fs := by
    have h2 := h
    unfold writeFinalTile at h2
    injection h2 with hmeta hfs
    subst hfs
    exact hmeta.symm
  subst hm
  constructor
  · simp [computeTileMeta, List.any_eq_true]
  · simp [computeTileMeta, List.any_eq_true]

/-- Witness for `c5_meta_flags` at the coastline tile. -/
theorem c5_meta_flags_witness :
    ((⟨true, false⟩ : TileMeta).hasCoastline = true ↔
      ∃ f ∈ [coastFeature], isCoastlineFeature f.props = true) ∧
    ((⟨true, false⟩ : TileMeta).hasLandFeatures = true ↔
      ∃ f ∈ [coastFeature], isLandFeature f.props = true) :=
  c5_meta_flags [] [coastFeature] ⟨true, false⟩ [coastFeature] (by decide)

/-- **C3 counterexample.** A tile produced by merging with a previously
written document at the same path is not re-sorted: the existing
building feature (importance 20) is prepended to the new motorway
feature (importance 80), so the merged document is not
importance-non-ascending — even though the new rows carry their correct
importances.  This refutes the merge clause of the claim. -/
theorem c3_counterexample :
    (∀ r ∈ rowsMotorway, r.importance = impOf r.feature) ∧
    ¬ (dbTileOutput existingBuilding rowsMotorway (0, 0)).featureList.Pairwise
        (fun a b => impOf b ≤ impOf a) := by
  constructor
  · decide
  · decide

/-- **C9.** One failing source is reported as failed while every other
source still contributes its own result record, computed from its own
outcome alone; the overall exit code is non-zero whenever any source
failed, and 0 exactly when every source processed successfully. -/
theorem c9_source_isolation_and_exit_code
    (pre post : List (String × Except String (Bounds ℚ)))
    (name err : String) :
    runSources (pre ++ (name, Except.error err) :: post) =
      runSources pre ++ ⟨name, SourceStatus.failed err⟩ :: runSources post ∧
    mainExitCode (runSources (pre ++ (name, Except.error err) :: post)) ≠ 0 ∧
    ∀ sources, (mainExitCode (runSources sources) = 0 ↔
      ∀ s ∈ sources, ∃ b, s.2 = Except.ok b) := by
  refine ⟨?_, ?_, ?_⟩
  · simp [runSources, process_geojson_to_tiles]
  · have hmem : (⟨name, SourceStatus.failed err⟩ : SourceResult) ∈
        runSources (pre ++ (name, Except.error err) :: post) := by
      simp [runSources, process_geojson_to_tiles]
    have hlt : successCount (runSources (pre ++ (name, Except.error err) :: post)) <
        (runSources (pre ++ (name, Except.error err) :: post)).length := by
      unfold successCount
      refine List.length_filter_lt_length_iff_exists.mpr ?_
      exact ⟨_, hmem, by simp [SourceResult.isSuccess]⟩
    simp [mainExitCode, hlt]
  · intro sources
    have hle : ∀ rs : List SourceResult, successCount rs ≤ rs.length :=
      fun rs => List.length_filter_le _ rs
    constructor
    · intro h0 s hs
      have hall : ∀ r ∈ runSources sources, r.isSuccess = true := by
        by_contra hnot
        push_neg at hnot
        obtain ⟨r, hr, hrs⟩ := hnot
        have : successCount (runSources sources) < (runSources sources).length := by
          unfold successCount
          exact List.length_filter_lt_length_iff_exists.mpr
            ⟨r, hr, by simpa using hrs⟩
        simp [mainExitCode, this] at h0
      have hmem : process_geojson_to_tiles s.1 s.2 ∈ runSources sources :=
        List.mem_map_of_mem _ hs
      have := hall _ hmem
      cases hs2 : s.2 with
      | ok b => exact ⟨b, rfl⟩
      | error e =>
        rw [hs2] at this
        simp [process_geojson_to_tiles, SourceResult.isSuccess] at this
    · intro hok
      have hall : ∀ r ∈ runSources sources, r.isSuccess = true := by
        intro r hr
        obtain ⟨s, hs, rfl⟩ := List.mem_map.mp hr
        obtain ⟨b, hb⟩ := hok s hs
        rw [hb]
        simp [process_geojson_to_tiles, SourceResult.isSuccess]
      have heq : successCount (runSources sources) = (runSources sources).length := by
        unfold successCount
        rw [List.filter_length_eq_length]
        exact hall
      simp [mainExitCode, heq]

/-- **C10.** Per-zoom simplification never increases the coordinate
count: for every feature, zoom, LOD and every possible behaviour of the
external Shapely simplifier, `simplify_feature_for_zoom` returns either
exactly the input feature (Points, building-tagged features, geometries
with fewer than 5 coordinates, the zoom-14 road/coastline early returns,
failed simplification) or a feature whose geometry has strictly fewer
than 90% of the input's coordinates. -/
theorem c10_simplify_never_grows
    (simplifyGeom : ℚ → Geometry ℚ → Option (Geometry ℚ))
    (f : Feature ℚ) (zoom min_lod : ℤ) :
    simplify_feature_for_zoom simplifyGeom f zoom min_lod = f ∨
    10 * count_coordinates (simplify_feature_for_zoom simplifyGeom f zoom min_lod).geometry <
      9 * count_coordinates f.geometry := by
  unfold simplify_feature_for_zoom
  dsimp only
  split
  · exact Or.inl rfl
  split
  · exact Or.inl rfl
  split
  · exact Or.inl rfl
  split
  · exact Or.inl rfl
  split
  · exact Or.inl rfl
  split
  · exact Or.inl rfl
  split
  · next h => exact Or.inr h
  · exact Or.inl rfl

theorem effectiveHighway_setHighway (p : Props) (c : String)
    (h1 : p.highway = some "construction") (h2 : p.construction = some c)
    (h3 : c ≠ "") :
    effectiveHighway p = effectiveHighway { p with highway := some c } := by
  unfold effectiveHighway
  rw [h1]
  simp only [h2]
  by_cases hc : c = "construction"
  · subst hc
    simp
  · simp [hc, h3]

/-- **C8.** A feature whose `highway` tag is `construction` with a
non-empty `construction` tag is scored and render-classified exactly as
if its highway class were the `construction` tag's value: both
`classify_feature_importance` and `get_render_metadata` agree with the
same feature whose `highway` tag is replaced by that value. -/
theorem c8_construction_remap (p : Props) (c : String) (g : String)
    (h1 : p.highway = some "construction") (h2 : p.construction = some c)
    (h3 : c ≠ "") :
    classify_feature_importance p g =
      classify_feature_importance { p with highway := some c } g ∧
    get_render_metadata p g =
      get_render_metadata { p with highway := some c } g := by
  have hEff := effectiveHighway_setHighway p c h1 h2 h3
  obtain ⟨f1, f2, f3, f4, f5, f6, f7, f8, f9, f10, f11, f12, f13, f14, f15,
    f16, f17, f18⟩ := p
  constructor
  · simp only [classify_feature_importance, hEff]
  · simp only [get_render_metadata, hEff]
    rfl

/-- Witness for `c8_construction_remap`: a `highway=construction`
feature targeting `primary`. -/
theorem c8_construction_remap_witness :
    classify_feature_importance constructionProps "LineString" =
      classify_feature_importance { constructionProps with highway := some "primary" }
        "LineString" ∧
    get_render_metadata constructionProps "LineString" =
      get_render_metadata { constructionProps with highway := some "primary" }
        "LineString" :=
  c8_construction_remap constructionProps "primary" "LineString" rfl rfl (by decide)

theorem filter_orderedInsert_pos {α : Type} (le : α → α → Prop) [DecidableRel le]
    (p : α → Bool) (a : α) (l : List α) (ha : p a = true)
    (h : ∀ b ∈ l, p b = true → le a b) :
    (List.orderedInsert le a l).filter p = a :: l.filter p := by
  induction l with
  | nil => simp [List.orderedInsert, ha]
  | cons b l ih =>
    by_cases hle : le a b
    · simp [List.orderedInsert, hle, ha]
    · have hpb : p b = false := by
        rcases hb : p b with _ | _
        · rfl
        · exact absurd (h b (List.mem_cons_self b l) hb) hle
      simp only [List.orderedInsert, if_neg hle, List.filter_cons, hpb]
      simp only [Bool.false_eq_true, if_false]
      exact ih (fun b' hb' hpb' => h b' (List.mem_cons_of_mem b hb') hpb')

theorem filter_orderedInsert_neg {α : Type} (le : α → α → Prop) [DecidableRel le]
    (p : α → Bool) (a : α) (l : List α) (ha : p a = false) :
    (List.orderedInsert le a l).filter p = l.filter p := by
  induction l with
  | nil => simp [List.orderedInsert, ha]
  | cons b l ih =>
    by_cases hle : le a b
    · simp [List.orderedInsert, hle, ha]
    · simp only [List.orderedInsert, if_neg hle, List.filter_cons]
      rw [ih]

theorem filter_insertionSort {α : Type} (le : α → α → Prop) [DecidableRel le]
    (p : α → Bool) (l : List α)
    (h : ∀ a ∈ l, ∀ b ∈ l, p a = true → p b = true → le a b) :
    (List.insertionSort le l).filter p = l.filter p := by
  induction l with
  | nil => simp
  | cons a l ih =>
    simp only [List.insertionSort]
    rcases hpa : p a with _ | _
    · rw [filter_orderedInsert_neg le p a _ hpa]
      rw [ih (fun x hx y hy => h x (List.mem_cons_of_mem a hx) y (List.mem_cons_of_mem a hy))]
      simp [List.filter_cons, hpa]
    · rw [filter_orderedInsert_pos le p a _ hpa ?_]
      · rw [ih (fun x hx y hy => h x (List.mem_cons_of_mem a hx) y (List.mem_cons_of_mem a hy))]
        simp [List.filter_cons, hpa]
      · intro b hb hpb
        have hbl : b ∈ l := (List.perm_insertionSort le l).mem_iff.mp hb
        exact h a (List.mem_cons_self a l) b (List.mem_cons_of_mem a hbl) hpa hpb

theorem mem_sortRows {rows : List (Row α)} {r : Row α} (h : r ∈ sortRows rows) :
    r ∈ rows :=
  (List.perm_insertionSort rowKeyLE rows).mem_iff.mp h

/-- **C3 (amended).** For a tile document produced by the finalizing
write path from the database rows alone (no previously written document
at the same path), the features appear sorted by importance
non-ascending, and the features of any fixed importance appear as a
subsequence of the tile's rows in their insertion (read) order — the
cursor follows the `(x, y, importance DESC)` index, which tie-breaks by
rowid.  (When a previously written document is merged in, its features
are prepended without re-sorting — see the counterexample.) -/
theorem c3_fresh_tile_sorted (rows : List (Row ℚ))
    (existingAt : ℤ × ℤ → List (Feature ℚ)) (k : ℤ × ℤ)
    (himp : ∀ r ∈ rows, r.importance = impOf r.feature)
    (hex : existingAt k = []) :
    (dbTileOutput existingAt rows k).featureList.Pairwise
      (fun a b => impOf b ≤ impOf a) ∧
    ∀ v : ℤ, List.Sublist
      ((dbTileOutput existingAt rows k).featureList.filter
        (fun f => decide (impOf f = v)))
      ((rows.filter
        (fun r => decide (r.x = k.1 ∧ r.y = k.2 ∧ r.importance = v))).map
          Row.feature) := by
  have hout : (dbTileOutput existingAt rows k).featureList =
      dedupFeatures (tileRowFeatures rows k) := by
    simp [dbTileOutput, writeFinalTile, hex, TileOut.featureList]
  have hsorted : (sortRows rows).Pairwise rowKeyLE :=
    List.sorted_insertionSort rowKeyLE rows
  constructor
  · rw [hout]
    have hfsorted : ((sortRows rows).filter
        (fun r => decide (r.x = k.1 ∧ r.y = k.2))).Pairwise
          (fun a b => impOf b.feature ≤ impOf a.feature) := by
      refine (hsorted.filter _).imp_of_mem ?_
      intro a b ha hb hle
      have hak := List.of_mem_filter ha
      have hbk := List.of_mem_filter hb
      simp only [decide_eq_true_eq] at hak hbk
      have haimp := himp a (mem_sortRows (List.mem_of_mem_filter ha))
      have hbimp := himp b (mem_sortRows (List.mem_of_mem_filter hb))
      rw [← haimp, ← hbimp]
      unfold rowKeyLE at hle
      omega
    have hmap : (tileRowFeatures rows k).Pairwise (fun a b => impOf b ≤ impOf a) := by
      unfold tileRowFeatures
      exact List.pairwise_map.mpr hfsorted
    exact hmap.sublist (dedupFeatures_sublist _)
  · intro v
    rw [hout]
    have step1 : List.Sublist
        ((dedupFeatures (tileRowFeatures rows k)).filter (fun f => decide (impOf f = v)))
        ((tileRowFeatures rows k).filter (fun f => decide (impOf f = v))) :=
      (dedupFeatures_sublist _).filter _
    have step2 : (tileRowFeatures rows k).filter (fun f => decide (impOf f = v)) =
        (((sortRows rows).filter
          (fun r => decide (r.x = k.1 ∧ r.y = k.2 ∧ r.importance = v))).map
            Row.feature) := by
      unfold tileRowFeatures
      rw [List.filter_map]
      congr 1
      rw [List.filter_filter]
      refine List.filter_congr ?_
      intro r hr
      have hi := himp r (mem_sortRows hr)
      simp only [Function.comp]
      by_cases hx : r.x = k.1 <;> by_cases hy : r.y = k.2 <;>
        by_cases hv : r.importance = v <;> simp [hx, hy, hv, ← hi]
    have step3 : ((sortRows rows).filter
        (fun r => decide (r.x = k.1 ∧ r.y = k.2 ∧ r.importance = v))) =
        (rows.filter (fun r => decide (r.x = k.1 ∧ r.y = k.2 ∧ r.importance = v))) := by
      unfold sortRows
      refine filter_insertionSort rowKeyLE _ rows ?_
      intro a _ b _ hpa hpb
      simp only [decide_eq_true_eq] at hpa hpb
      unfold rowKeyLE
      omega
    rw [step2, step3] at step1
    exact step1

/-- Witness for `c3_fresh_tile_sorted` at the fresh two-row tile. -/
theorem c3_fresh_tile_sorted_witness :
    (dbTileOutput (fun _ => []) rowsFresh (0, 0)).featureList.Pairwise
      (fun a b => impOf b ≤ impOf a) ∧
    List.Sublist
      ((dbTileOutput (fun _ => []) rowsFresh (0, 0)).featureList.filter
        (fun f => decide (impOf f = 80)))
      ((rowsFresh.filter
        (fun r => decide (r.x = (0, 0).1 ∧ r.y = (0, 0).2 ∧ r.importance = 80))).map
          Row.feature) :=
  ⟨(c3_fresh_tile_sorted rowsFresh (fun _ => []) (0, 0) (by decide) rfl).1,
   (c3_fresh_tile_sorted rowsFresh (fun _ => []) (0, 0) (by decide) rfl).2 80⟩

theorem pytruncR_of_nonneg {x : ℝ} (h : 0 ≤ x) : pytruncR x = ⌊x⌋ :=
  if_pos h

theorem pytruncR_of_neg {x : ℝ} (h : ¬ 0 ≤ x) : pytruncR x = ⌈x⌉ :=
  if_neg h

theorem mem_intRange {a b x : ℤ} : x ∈ intRange a b ↔ a ≤ x ∧ x ≤ b := by
  unfold intRange
  simp only [List.mem_map, List.mem_range]
  constructor
  · rintro ⟨i, hi, rfl⟩
    omega
  · intro ⟨h1, h2⟩
    exact ⟨(x - a).toNat, by omega, by omega⟩

/-- **C2 counterexample.** At longitude `-1`, zoom 3, for the spec's
sample tile size `S = 50000` m (grid factor evaluated at the grid origin
`latAvg = 0`): the source assigns tile x `3` (Web-Mercator slippy grid,
origin at `lon = -180`), while the claimed formula
`floor(lon / (S / metersPerDegLon))` gives `-3`. -/
theorem c2_counterexample :
    lon_to_tile_x (-1) 3 = 3 ∧ spec_lon_to_tile_x 50000 0 (-1) = -3 := by
  constructor
  · unfold lon_to_tile_x
    rw [pytruncR_of_nonneg (by norm_num)]
    rw [Int.floor_eq_iff]
    norm_num
  · unfold spec_lon_to_tile_x
    rw [show ((0:ℝ) * Real.pi / 180) = 0 by ring, Real.cos_zero]
    rw [Int.floor_eq_iff]
    norm_num

/-- **C2 (amended).** The tile x index the source assigns to a longitude
is `int((lon + 180)/360 · 2^zoom)` — the Web-Mercator slippy grid of
`2^zoom` equal-width columns originating at `lon = -180` — not
`floor(lon / (S / metersPerDegLon))` for any meters-based tile size `S`
(no such size exists in the code).  For `lon ≥ -180` the truncation is a
floor and the assigned column is exactly the one whose longitude span
contains `lon`: `tile_to_lon(x) ≤ lon < tile_to_lon(x+1)`.  The y index
analogously uses the Web-Mercator latitude parameter `mercParam`, not a
meters-derived tile height. -/
theorem c2_tile_x_web_mercator (lon : ℝ) (zoom : ℕ) (h : -180 ≤ lon) :
    lon_to_tile_x lon zoom = ⌊(lon + 180) / 360 * 2 ^ zoom⌋ ∧
    tile_to_lon (lon_to_tile_x lon zoom) zoom ≤ lon ∧
    lon < tile_to_lon (lon_to_tile_x lon zoom + 1) zoom ∧
    lat_to_tile_y lon zoom = pytruncR (mercParam lon zoom) := by
  have hN : (0:ℝ) < 2 ^ zoom := by positivity
  have hw : (0:ℝ) ≤ (lon + 180) / 360 * 2 ^ zoom := by
    have : (0:ℝ) ≤ lon + 180 := by linarith
    positivity
  have hfloor : lon_to_tile_x lon zoom = ⌊(lon + 180) / 360 * 2 ^ zoom⌋ := by
    unfold lon_to_tile_x
    exact pytruncR_of_nonneg hw
  refine ⟨hfloor, ?_, ?_, rfl⟩
  · rw [hfloor]
    unfold tile_to_lon
    have hle : (↑⌊(lon + 180) / 360 * 2 ^ zoom⌋ : ℝ) ≤ (lon + 180) / 360 * 2 ^ zoom :=
      Int.floor_le _
    have : (↑⌊(lon + 180) / 360 * 2 ^ zoom⌋ : ℝ) / 2 ^ zoom * 360 ≤ lon + 180 := by
      calc (↑⌊(lon + 180) / 360 * 2 ^ zoom⌋ : ℝ) / 2 ^ zoom * 360
          ≤ ((lon + 180) / 360 * 2 ^ zoom) / 2 ^ zoom * 360 := by gcongr
        _ = lon + 180 := by field_simp; ring
    linarith
  · rw [hfloor]
    unfold tile_to_lon
    have hlt : (lon + 180) / 360 * 2 ^ zoom < ↑⌊(lon + 180) / 360 * 2 ^ zoom⌋ + 1 :=
      Int.lt_floor_add_one _
    have : lon + 180 < (↑(⌊(lon + 180) / 360 * 2 ^ zoom⌋ + 1) : ℝ) / 2 ^ zoom * 360 := by
      push_cast
      calc lon + 180 = ((lon + 180) / 360 * 2 ^ zoom) / 2 ^ zoom * 360 := by field_simp; ring
        _ < (↑⌊(lon + 180) / 360 * 2 ^ zoom⌋ + 1) / 2 ^ zoom * 360 := by gcongr
    linarith

/-- Witness for `c2_tile_x_web_mercator` at `lon = 10`, zoom 3. -/
theorem c2_tile_x_web_mercator_witness :
    lon_to_tile_x 10 3 = ⌊((10:ℝ) + 180) / 360 * 2 ^ 3⌋ ∧
    tile_to_lon (lon_to_tile_x 10 3) 3 ≤ 10 ∧
    (10:ℝ) < tile_to_lon (lon_to_tile_x 10 3 + 1) 3 ∧
    lat_to_tile_y 10 3 = pytruncR (mercParam 10 3) :=
  c2_tile_x_web_mercator 10 3 (by norm_num)

theorem listMin_le_listMax [LinearOrder α] {a c : α} (h : a ≤ c) (l : List α) :
    listMin a l ≤ listMax c l := by
  induction l generalizing a c with
  | nil => exact h
  | cons x l ih =>
    unfold listMin listMax
    simp only [List.foldl_cons]
    exact ih (le_trans (min_le_left a x) (le_trans h (le_max_left c x)))

theorem get_feature_bounds_le [LinearOrder α] {f : Feature α} {b : Bounds α}
    (h : get_feature_bounds f = some b) :
    b.minLon ≤ b.maxLon ∧ b.minLat ≤ b.maxLat := by
  unfold get_feature_bounds at h
  rcases hbc : boundsCoords f.geometry with _ | ⟨c, cs⟩ <;> rw [hbc] at h
  · exact absurd h (by simp)
  · injection h with h
    subst h
    exact ⟨listMin_le_listMax le_rfl _, listMin_le_listMax le_rfl _⟩

theorem mercParam_tile_to_lat (y : ℤ) (zoom : ℕ) :
    mercParam (tile_to_lat y zoom) zoom = (y : ℝ) := by
  have hπ : Real.pi ≠ 0 := Real.pi_ne_zero
  have hN : ((2:ℝ) ^ zoom) ≠ 0 := by positivity
  unfold mercParam mercRaw tile_to_lat
  rw [show Real.arctan (Real.sinh (Real.pi * (1 - 2 * (y:ℝ) / 2 ^ zoom))) * 180 /
      Real.pi * Real.pi / 180 =
      Real.arctan (Real.sinh (Real.pi * (1 - 2 * (y:ℝ) / 2 ^ zoom))) from by
    field_simp]
  rw [Real.tan_arctan, Real.arsinh_sinh]
  field_simp
  ring

theorem tile_to_lat_mem (y : ℤ) (zoom : ℕ) :
    -90 < tile_to_lat y zoom ∧ tile_to_lat y zoom < 90 := by
  unfold tile_to_lat
  have hπ := Real.pi_pos
  have h1 := Real.arctan_lt_pi_div_two (Real.sinh (Real.pi * (1 - 2 * (y:ℝ) / 2 ^ zoom)))
  have h2 := Real.neg_pi_div_two_lt_arctan (Real.sinh (Real.pi * (1 - 2 * (y:ℝ) / 2 ^ zoom)))
  constructor
  · rw [lt_div_iff hπ]
    nlinarith
  · rw [div_lt_iff hπ]
    nlinarith

theorem mercRaw_lt_mercRaw {a b : ℝ} (ha : -90 < a) (hab : a < b) (hb : b < 90) :
    mercRaw b < mercRaw a := by
  have hπ := Real.pi_pos
  have hx1 : -(Real.pi / 2) < a * Real.pi / 180 := by nlinarith
  have hx2 : b * Real.pi / 180 < Real.pi / 2 := by nlinarith
  have hxy : a * Real.pi / 180 < b * Real.pi / 180 := by nlinarith
  have htan := Real.tan_lt_tan_of_lt_of_lt_pi_div_two hx1 hx2 hxy
  have hars := Real.arsinh_lt_arsinh.mpr htan
  unfold mercRaw
  have hd : Real.arsinh (Real.tan (a * Real.pi / 180)) / Real.pi <
      Real.arsinh (Real.tan (b * Real.pi / 180)) / Real.pi :=
    (div_lt_div_right hπ).mpr hars
  linarith

theorem mercParam_lt_mercParam {a b : ℝ} (zoom : ℕ) (ha : -90 < a) (hab : a < b)
    (hb : b < 90) : mercParam b zoom < mercParam a zoom := by
  unfold mercParam
  have hN : (0:ℝ) < 2 ^ zoom := by positivity
  exact mul_lt_mul_of_pos_right (mercRaw_lt_mercRaw ha hab hb) hN

theorem mercParam_le_mercParam {a b : ℝ} (zoom : ℕ) (ha : -90 < a) (hab : a ≤ b)
    (hb : b < 90) : mercParam b zoom ≤ mercParam a zoom := by
  rcases eq_or_lt_of_le hab with rfl | hlt
  · exact le_refl _
  · exact (mercParam_lt_mercParam zoom ha hlt hb).le

theorem tile_to_lon_le_of_le {lon : ℝ} {zoom : ℕ} (h : -180 ≤ lon) {x : ℤ}
    (hx : x ≤ lon_to_tile_x lon zoom) : tile_to_lon x zoom ≤ lon := by
  have hN : (0:ℝ) < 2 ^ zoom := by positivity
  have hw : (0:ℝ) ≤ (lon + 180) / 360 * 2 ^ zoom := by
    have h0 : (0:ℝ) ≤ lon + 180 := by linarith
    positivity
  have hfl : lon_to_tile_x lon zoom = ⌊(lon + 180) / 360 * 2 ^ zoom⌋ := by
    unfold lon_to_tile_x
    exact pytruncR_of_nonneg hw
  rw [hfl] at hx
  have hxle : (x : ℝ) ≤ (lon + 180) / 360 * 2 ^ zoom := by
    have hcast : (x : ℝ) ≤ (⌊(lon + 180) / 360 * 2 ^ zoom⌋ : ℝ) := by exact_mod_cast hx
    exact le_trans hcast (Int.floor_le _)
  unfold tile_to_lon
  have hkey : (x:ℝ) / 2 ^ zoom * 360 ≤ lon + 180 := by
    calc (x:ℝ) / 2 ^ zoom * 360
        ≤ ((lon + 180) / 360 * 2 ^ zoom) / 2 ^ zoom * 360 := by gcongr
      _ = lon + 180 := by field_simp; ring
  linarith

theorem lt_tile_to_lon_of_le {lon : ℝ} {zoom : ℕ} (h : -180 ≤ lon) {x : ℤ}
    (hx : lon_to_tile_x lon zoom ≤ x) : lon < tile_to_lon (x + 1) zoom := by
  have hN : (0:ℝ) < 2 ^ zoom := by positivity
  have hw : (0:ℝ) ≤ (lon + 180) / 360 * 2 ^ zoom := by
    have h0 : (0:ℝ) ≤ lon + 180 := by linarith
    positivity
  have hfl : lon_to_tile_x lon zoom = ⌊(lon + 180) / 360 * 2 ^ zoom⌋ := by
    unfold lon_to_tile_x
    exact pytruncR_of_nonneg hw
  rw [hfl] at hx
  have hxlt : (lon + 180) / 360 * 2 ^ zoom < (x : ℝ) + 1 := by
    have hcast : (⌊(lon + 180) / 360 * 2 ^ zoom⌋ : ℝ) ≤ (x : ℝ) := by exact_mod_cast hx
    linarith [Int.lt_floor_add_one ((lon + 180) / 360 * 2 ^ zoom)]
  unfold tile_to_lon
  have hkey : lon + 180 < ((x:ℝ) + 1) / 2 ^ zoom * 360 := by
    calc lon + 180 = ((lon + 180) / 360 * 2 ^ zoom) / 2 ^ zoom * 360 := by
          field_simp; ring
      _ < ((x:ℝ) + 1) / 2 ^ zoom * 360 := by gcongr
  push_cast
  linarith

theorem tile_to_lat_le_of_le {lat : ℝ} {zoom : ℕ} (h1 : -90 < lat) (h2 : lat < 90)
    (hm : 0 ≤ mercParam lat zoom) {y : ℤ} (hy : lat_to_tile_y lat zoom ≤ y) :
    tile_to_lat (y + 1) zoom ≤ lat := by
  have hfl : lat_to_tile_y lat zoom = ⌊mercParam lat zoom⌋ := by
    unfold lat_to_tile_y
    exact pytruncR_of_nonneg hm
  rw [hfl] at hy
  have hlt : mercParam lat zoom < (y:ℝ) + 1 := by
    have hcast : (⌊mercParam lat zoom⌋ : ℝ) ≤ (y : ℝ) := by exact_mod_cast hy
    linarith [Int.lt_floor_add_one (mercParam lat zoom)]
  by_contra hcon
  push_neg at hcon
  have htm := tile_to_lat_mem (y + 1) zoom
  have hmono := mercParam_lt_mercParam zoom h1 hcon htm.2
  rw [mercParam_tile_to_lat] at hmono
  push_cast at hmono
  linarith

theorem le_tile_to_lat_of_le {lat : ℝ} {zoom : ℕ} (h1 : -90 < lat) (h2 : lat < 90)
    (hm : 0 ≤ mercParam lat zoom) {y : ℤ} (hy : y ≤ lat_to_tile_y lat zoom) :
    lat ≤ tile_to_lat y zoom := by
  have hfl : lat_to_tile_y lat zoom = ⌊mercParam lat zoom⌋ := by
    unfold lat_to_tile_y
    exact pytruncR_of_nonneg hm
  rw [hfl] at hy
  have hle : (y:ℝ) ≤ mercParam lat zoom := by
    have hcast : (y : ℝ) ≤ (⌊mercParam lat zoom⌋ : ℝ) := by exact_mod_cast hy
    exact le_trans hcast (Int.floor_le _)
  by_contra hcon
  push_neg at hcon
  have htm := tile_to_lat_mem y zoom
  have hmono := mercParam_lt_mercParam zoom htm.1 hcon h2
  rw [mercParam_tile_to_lat] at hmono
  linarith

/-- **C6 (amended).** For every feature routed to tiles whose bounding
box `b` satisfies `-180 ≤ minLon`, `-90 < minLat`, `maxLat < 90` and
whose north edge lies at or below the Web-Mercator cap
(`0 ≤ mercParam maxLat`, i.e. `maxLat ⪅ 85.05°`), every tile ID the
router returns has a tile bounding box intersecting `b`.  (North of the
cap the Mercator parameter is negative and Python's `int()` truncates
toward zero instead of flooring, and the assignment can miss — see the
counterexample.) -/
theorem c6_bbox_intersects (f : Feature ℝ) (zoom : ℕ) (b : Bounds ℝ) (x y : ℤ)
    (hb : get_feature_bounds f = some b)
    (hminLat : -90 < b.minLat) (hmaxLat : b.maxLat < 90)
    (hminLon : -180 ≤ b.minLon)
    (hmerc : 0 ≤ mercParam b.maxLat zoom)
    (ht : (x, y) ∈ get_tiles_for_feature f zoom) :
    bboxIntersects b (get_tile_bounds x y zoom) := by
  obtain ⟨hLL, hLa⟩ := get_feature_bounds_le hb
  have hxy : x ∈ intRange (lon_to_tile_x b.minLon zoom) (lon_to_tile_x b.maxLon zoom) ∧
      y ∈ intRange (lat_to_tile_y b.maxLat zoom) (lat_to_tile_y b.minLat zoom) := by
    unfold get_tiles_for_feature at ht
    rw [hb] at ht
    simp only [List.mem_flatMap, List.mem_map, Prod.mk.injEq] at ht
    obtain ⟨x', hx', y', hy', hxx, hyy⟩ := ht
    subst hxx
    subst hyy
    exact ⟨hx', hy'⟩
  obtain ⟨hx, hy⟩ := hxy
  rw [mem_intRange] at hx hy
  have hmaxLon' : -180 ≤ b.maxLon := le_trans hminLon hLL
  have hminLat90 : b.minLat < 90 := lt_of_le_of_lt hLa hmaxLat
  have hmaxLatm90 : -90 < b.maxLat := lt_of_lt_of_le hminLat hLa
  have hmercMin : 0 ≤ mercParam b.minLat zoom :=
    le_trans hmerc (mercParam_le_mercParam zoom hminLat hLa hmaxLat)
  unfold bboxIntersects get_tile_bounds
  refine ⟨?_, ?_, ?_, ?_⟩
  · exact (lt_tile_to_lon_of_le hminLon hx.1).le
  · exact tile_to_lon_le_of_le hmaxLon' hx.2
  · exact le_tile_to_lat_of_le hminLat hminLat90 hmercMin hy.2
  · exact tile_to_lat_le_of_le hmaxLatm90 hmaxLat hmerc hy.1

theorem get_feature_bounds_fOrigin :
    get_feature_bounds fOrigin = some ⟨0, 0, 0, 0⟩ :=
  rfl

theorem mercParam_zero_zoom0 : mercParam 0 0 = 1 / 2 := by
  unfold mercParam mercRaw
  rw [show ((0:ℝ) * Real.pi / 180) = 0 by ring, Real.tan_zero, Real.arsinh_zero]
  norm_num

theorem lon_to_tile_x_origin : lon_to_tile_x 0 0 = 0 := by
  unfold lon_to_tile_x
  rw [pytruncR_of_nonneg (by norm_num)]
  rw [Int.floor_eq_iff]
  norm_num

theorem lat_to_tile_y_origin : lat_to_tile_y 0 0 = 0 := by
  unfold lat_to_tile_y
  rw [mercParam_zero_zoom0, pytruncR_of_nonneg (by norm_num)]
  rw [Int.floor_eq_iff]
  norm_num

theorem origin_mem_tiles : (0, 0) ∈ get_tiles_for_feature fOrigin 0 := by
  unfold get_tiles_for_feature
  rw [get_feature_bounds_fOrigin]
  simp only [lon_to_tile_x_origin, lat_to_tile_y_origin, List.mem_flatMap,
    List.mem_map, Prod.mk.injEq]
  exact ⟨0, mem_intRange.mpr (by omega), 0, mem_intRange.mpr (by omega), rfl, rfl⟩

/-- Witness for `c6_bbox_intersects` at a point feature on the origin,
zoom 0, tile `(0, 0)`. -/
theorem c6_bbox_intersects_witness :
    bboxIntersects ⟨0, 0, 0, 0⟩ (get_tile_bounds 0 0 0) :=
  c6_bbox_intersects fOrigin 0 ⟨0, 0, 0, 0⟩ 0 0 get_feature_bounds_fOrigin
    (by norm_num) (by norm_num) (by norm_num)
    (by rw [mercParam_zero_zoom0]; norm_num) origin_mem_tiles

theorem tan_deg89_eq :
    Real.tan (89 * Real.pi / 180) = (Real.tan (Real.pi / 180))⁻¹ := by
  rw [show (89 * Real.pi / 180 : ℝ) = Real.pi / 2 - Real.pi / 180 by ring]
  exact Real.tan_pi_div_two_sub _

theorem tan_pi_div_180_pos : 0 < Real.tan (Real.pi / 180) := by
  have hπ := Real.pi_pos
  refine Real.tan_pos_of_pos_of_lt_pi_div_two (by positivity) ?_
  nlinarith

theorem pi_div_180_lt : Real.pi / 180 < 0.0175 := by
  linarith [Real.pi_lt_d2]

theorem pi_div_180_gt : 0.01744 < Real.pi / 180 := by
  linarith [Real.pi_gt_d2]

theorem cos_pi_div_180_gt : (0.99:ℝ) < Real.cos (Real.pi / 180) := by
  have hx0 : (0:ℝ) < Real.pi / 180 := by positivity
  have h1 := Real.one_sub_sq_div_two_lt_cos (x := Real.pi / 180) (by positivity)
  have hx := pi_div_180_lt
  nlinarith

theorem tan_pi_div_180_lt : Real.tan (Real.pi / 180) < 0.0177 := by
  have hx0 : (0:ℝ) < Real.pi / 180 := by positivity
  have hsin : Real.sin (Real.pi / 180) < 0.0175 :=
    lt_of_lt_of_le (Real.sin_lt hx0) pi_div_180_lt.le
  have hcos := cos_pi_div_180_gt
  rw [Real.tan_eq_sin_div_cos]
  have h1 : Real.sin (Real.pi / 180) / Real.cos (Real.pi / 180) < 0.0175 / 0.99 := by
    apply div_lt_div hsin hcos.le (by norm_num) (by norm_num)
  linarith [h1]

theorem tan_pi_div_180_gt : (0.0174:ℝ) < Real.tan (Real.pi / 180) := by
  have hx0 : (0:ℝ) < Real.pi / 180 := by positivity
  have hx1 : Real.pi / 180 ≤ 1 := by linarith [pi_div_180_lt]
  have hsub := Real.sin_gt_sub_cube hx0 hx1
  have hcube : (Real.pi / 180) ^ 3 < 0.0175 ^ 3 := by
    apply pow_lt_pow_left pi_div_180_lt hx0.le
    norm_num
  have hsin : (0.01743:ℝ) < Real.sin (Real.pi / 180) := by
    have := pi_div_180_gt
    nlinarith
  have hsin_pos : 0 < Real.sin (Real.pi / 180) := by linarith
  have hcos_pos : 0 < Real.cos (Real.pi / 180) := by linarith [cos_pi_div_180_gt]
  have htan_ge : Real.sin (Real.pi / 180) ≤ Real.tan (Real.pi / 180) := by
    rw [Real.tan_eq_sin_div_cos]
    rw [le_div_iff hcos_pos]
    exact mul_le_of_le_one_right hsin_pos.le (Real.cos_le_one _)
  linarith

theorem sinh_pi_lt : Real.sinh Real.pi < 27.3 := by
  have h1 := Real.sinh_eq Real.pi
  have h2 : Real.exp Real.pi < Real.exp 4 := Real.exp_lt_exp.mpr Real.pi_lt_four
  have h3 : Real.exp 4 = Real.exp 1 ^ 4 := by
    rw [show (4:ℝ) = ((4:ℕ):ℝ) * 1 by norm_num, Real.exp_nat_mul]
  have h4 : Real.exp 1 ^ 4 < 2.7182818286 ^ 4 := by
    apply pow_lt_pow_left Real.exp_one_lt_d9 (Real.exp_pos 1).le
    norm_num
  have h5 : (2.7182818286:ℝ) ^ 4 < 54.6 := by norm_num
  have h6 : 0 < Real.exp (-Real.pi) := Real.exp_pos _
  rw [h1]
  linarith

theorem sinh_three_pi_gt : (255:ℝ) < Real.sinh (3 * Real.pi) := by
  have h9 : (9:ℝ) < 3 * Real.pi := by nlinarith [Real.pi_gt_three]
  have hmono : Real.sinh 9 < Real.sinh (3 * Real.pi) := Real.sinh_lt_sinh.mpr h9
  have he2 : (2:ℝ) ≤ Real.exp 1 := by linarith [Real.add_one_le_exp 1]
  have h3 : Real.exp 9 = Real.exp 1 ^ 9 := by
    rw [show (9:ℝ) = ((9:ℕ):ℝ) * 1 by norm_num, Real.exp_nat_mul]
  have h9e : (512:ℝ) ≤ Real.exp 9 := by
    rw [h3]
    calc (512:ℝ) = 2 ^ 9 := by norm_num
      _ ≤ Real.exp 1 ^ 9 := by
        apply pow_le_pow_left (by norm_num) he2
  have hneg : Real.exp (-9) ≤ 1 := by
    rw [show (1:ℝ) = Real.exp 0 from (Real.exp_zero).symm]
    exact Real.exp_le_exp.mpr (by norm_num)
  have hs9 : Real.sinh 9 = (Real.exp 9 - Real.exp (-9)) / 2 := Real.sinh_eq 9
  have : (255:ℝ) < Real.sinh 9 := by
    rw [hs9]
    linarith
  linarith

theorem sinh_pi_lt_tan89 :
    Real.sinh Real.pi < Real.tan (89 * Real.pi / 180) := by
  rw [tan_deg89_eq, inv_eq_one_div, lt_div_iff tan_pi_div_180_pos]
  have hsp : 0 ≤ Real.sinh Real.pi := (Real.sinh_pos_iff.mpr Real.pi_pos).le
  have h := mul_lt_mul'' sinh_pi_lt tan_pi_div_180_lt hsp tan_pi_div_180_pos.le
  calc Real.sinh Real.pi * Real.tan (Real.pi / 180) < 27.3 * 0.0177 := h
    _ < 1 := by norm_num

theorem tan89_lt_sinh_3pi :
    Real.tan (89 * Real.pi / 180) < Real.sinh (3 * Real.pi) := by
  rw [tan_deg89_eq, inv_eq_one_div, div_lt_iff tan_pi_div_180_pos]
  have h := mul_lt_mul'' sinh_three_pi_gt tan_pi_div_180_gt (by norm_num)
    (by norm_num)
  calc (1:ℝ) < 255 * 0.0174 := by norm_num
    _ < Real.sinh (3 * Real.pi) * Real.tan (Real.pi / 180) := h

theorem arsinh_tan89_gt :
    Real.pi < Real.arsinh (Real.tan (89 * Real.pi / 180)) := by
  have h := Real.arsinh_lt_arsinh.mpr sinh_pi_lt_tan89
  rwa [Real.arsinh_sinh] at h

theorem arsinh_tan89_lt :
    Real.arsinh (Real.tan (89 * Real.pi / 180)) < 3 * Real.pi := by
  have h := Real.arsinh_lt_arsinh.mpr tan89_lt_sinh_3pi
  rwa [Real.arsinh_sinh] at h

theorem mercParam_89_neg : mercParam 89 0 < 0 := by
  have hπ := Real.pi_pos
  have hdiv : 1 < Real.arsinh (Real.tan (89 * Real.pi / 180)) / Real.pi :=
    (one_lt_div hπ).mpr arsinh_tan89_gt
  unfold mercParam mercRaw
  rw [pow_zero, mul_one]
  linarith

theorem mercParam_89_gt : -1 < mercParam 89 0 := by
  have hπ := Real.pi_pos
  have hdiv : Real.arsinh (Real.tan (89 * Real.pi / 180)) / Real.pi < 3 := by
    rw [div_lt_iff hπ]
    linarith [arsinh_tan89_lt]
  unfold mercParam mercRaw
  rw [pow_zero, mul_one]
  linarith

theorem lat_to_tile_y_89 : lat_to_tile_y 89 0 = 0 := by
  unfold lat_to_tile_y
  rw [pytruncR_of_neg (not_le.mpr mercParam_89_neg)]
  rw [Int.ceil_eq_iff]
  constructor
  · simpa using mercParam_89_gt
  · simpa using mercParam_89_neg.le

theorem get_feature_bounds_f89 :
    get_feature_bounds f89 = some ⟨0, 0, 89, 89⟩ :=
  rfl

theorem f89_mem_tiles : (0, 0) ∈ get_tiles_for_feature f89 0 := by
  unfold get_tiles_for_feature
  rw [get_feature_bounds_f89]
  simp only [lon_to_tile_x_origin, lat_to_tile_y_89, List.mem_flatMap,
    List.mem_map, Prod.mk.injEq]
  exact ⟨0, mem_intRange.mpr (by omega), 0, mem_intRange.mpr (by omega), rfl, rfl⟩

theorem tile_to_lat_00_lt_89 : tile_to_lat 0 0 < 89 := by
  unfold tile_to_lat
  have hπ := Real.pi_pos
  rw [show Real.pi * (1 - 2 * ((0:ℤ):ℝ) / 2 ^ 0) = Real.pi by push_cast; ring]
  have h89lt : (89:ℝ) * Real.pi / 180 < Real.pi / 2 := by nlinarith
  have h89gt : -(Real.pi / 2) < (89:ℝ) * Real.pi / 180 := by nlinarith
  have harc : Real.arctan (Real.sinh Real.pi) < 89 * Real.pi / 180 := by
    have h1 : Real.arctan (Real.sinh Real.pi) <
        Real.arctan (Real.tan (89 * Real.pi / 180)) :=
      Real.arctan_strictMono sinh_pi_lt_tan89
    rwa [Real.arctan_tan h89gt h89lt] at h1
  rw [div_lt_iff hπ]
  nlinarith

/-- **C6 counterexample.** The point feature at `(lon, lat) = (0°, 89°)`
— a valid WGS84 coordinate — is routed at zoom 0 to the single tile
`(0, 0)`, because the Web-Mercator parameter of latitude 89° is negative
(≈ −0.25) and Python's `int()` truncates it toward zero to 0.  But tile
`(0, 0)`'s bounding box only reaches up to `tile_to_lat 0 ≈ 85.05°`, so
the feature's bounding box does not intersect the assigned tile's
bounding box. -/
theorem c6_counterexample :
    get_feature_bounds f89 = some ⟨0, 0, 89, 89⟩ ∧
    (0, 0) ∈ get_tiles_for_feature f89 0 ∧
    ¬ bboxIntersects ⟨0, 0, 89, 89⟩ (get_tile_bounds 0 0 0) := by
  refine ⟨get_feature_bounds_f89, f89_mem_tiles, ?_⟩
  intro h
  obtain ⟨_, _, h3, _⟩ := h
  exact absurd (show (89:ℝ) ≤ tile_to_lat 0 0 from h3)
    (not_le.mpr tile_to_lat_00_lt_89)
